import Mathlib

/-!
Verification of the staged speech-translation pipeline (STS).

This file shallowly embeds the orchestration layer of the repository:

* `main_pipeline.py` — the `SpeechTranslationPipeline` class: the recognized-text
  gate in `_on_speech_to_text`, the request-id generator `_get_request_id`,
  `start` / `stop` / `get_status`, and the synchronous `process_file` path;
* `translation_module.py` — `EnglishToRussianTranslator.translate`;
* `tts_module.py` — `RussianTextToSpeech.synthesize`;
* `api_app.py` — `TranslationPipeline.translate_audio_chunk` and the
  `translate_audio` request handler.

The external pretrained models (Whisper, MarianMT, gTTS), the audio codec and
the subprocess/file-system environment are represented as explicit oracle
parameters (`Except`-valued functions), so every branch the Python code takes
on their answers is reproduced here.  Python strings are embedded as Lean
strings; the Python methods `str.strip`, `str.lower` and `str.endswith` are
embedded as `pyStrip`, `pyLower` and `pyEndswith` below.  Audio sample buffers
are embedded as `List ℚ` (only their length and emptiness matter to the code
under verification; `numpy` row means are embedded exactly as rational means).
-/

namespace STS

/-! ## Python string primitives -/

/-- Strip a predicate from both ends of a list: the embedding of Python
`str.strip()` at the character-list level (drop leading, then trailing). -/
def dropBoth (p : α → Bool) (l : List α) : List α :=
  ((l.dropWhile p).reverse.dropWhile p).reverse

/-- Embedding of Python `str.strip()` (whitespace from both ends). -/
def pyStrip (s : String) : String :=
  ⟨dropBoth Char.isWhitespace s.data⟩

/-- Embedding of Python `str.lower()` (character-wise lowering). -/
def pyLower (s : String) : String :=
  ⟨s.data.map Char.toLower⟩

/-- Embedding of Python `str.endswith(t)`: the last `|t|` characters equal `t`. -/
def pyEndswith (s t : String) : Bool :=
  s.data.reverse.take t.data.length == t.data.reverse

/-! ## Decimal rendering (Python `str` of a nonnegative `int`) -/

/-- The character of one decimal digit. -/
def digitChar10 (d : ℕ) : Char := Char.ofNat (48 + d)

/-- Embedding of Python `str(n)` for a nonnegative integer: its decimal
digits, most significant first. -/
def decRepr (n : ℕ) : String :=
  if n = 0 then "0" else ⟨((Nat.digits 10 n).map digitChar10).reverse⟩

/-! ## `_get_request_id` (main_pipeline.py, lines 73-76)

`_get_request_id` increments `self.request_counter` and returns
`f"req_{self.request_counter}_{int(time.time() * 1000)}"`.  `fmtId n t` is the
returned string for counter value `n` and capture time `t` in milliseconds. -/

/-- The request-id string `"req_{n}_{t}"` built by `_get_request_id`. -/
def fmtId (n t : ℕ) : String :=
  "req_" ++ decRepr n ++ "_" ++ decRepr t

/-- Serialized executions of `_get_request_id`: starting from counter `c`,
one call per capture time in the list, each call incrementing the counter and
returning `(new counter, id string)`. -/
def genIds : ℕ → List ℕ → List (ℕ × String)
  | _, [] => []
  | c, t :: ts => (c + 1, fmtId (c + 1) t) :: genIds (c + 1) ts

/-- Progress of one in-flight `_get_request_id` call, one constructor per
program point between the statements of the method: before the
`self.request_counter += 1` statement, before the f-string (which reads
`self.request_counter` again), and returned. -/
inductive CallPhase where
  | beforeInc : CallPhase
  | beforeFmt : CallPhase
  | done (id : String) : CallPhase
deriving DecidableEq

/-- Execute the next statement of `_get_request_id` for one thread: the
increment statement, then the f-string read of the shared counter.  Returns
the new shared counter and the new thread phase. -/
def callStep (counter : ℕ) (tMs : ℕ) : CallPhase → ℕ × CallPhase
  | .beforeInc => (counter + 1, .beforeFmt)
  | .beforeFmt => (counter, .done (fmtId counter tMs))
  | .done i => (counter, .done i)

/-- Two threads concurrently inside `_get_request_id`: the shared counter and
each thread's phase. -/
structure RaceState where
  counter : ℕ
  a : CallPhase
  b : CallPhase
deriving DecidableEq

/-- One scheduler step: run the next statement of thread `a` (if `pickA`) or
of thread `b`. -/
def raceStep (tA tB : ℕ) (s : RaceState) (pickA : Bool) : RaceState :=
  if pickA then
    let r := callStep s.counter tA s.a
    ⟨r.1, r.2, s.b⟩
  else
    let r := callStep s.counter tB s.b
    ⟨r.1, s.a, r.2⟩

/-- Run a schedule (a list of thread picks) from a state. -/
def raceRun (tA tB : ℕ) (sched : List Bool) (s : RaceState) : RaceState :=
  sched.foldl (raceStep tA tB) s

/-- Both threads about to call `_get_request_id` on a fresh pipeline
(`request_counter == 0`). -/
def raceInit : RaceState := ⟨0, .beforeInc, .beforeInc⟩

/-! ## The recognized-text gate (`_on_speech_to_text`, main_pipeline.py 78-103) -/

/-- The acceptance decision of `_on_speech_to_text`: strip the candidate;
reject if empty, then if its lowering is the denylist phrase `"thank you"`
(with or without trailing period), then if it equals the stripped previous
accepted text; otherwise accept. -/
def sttAccept (last_text : String) (text : String) : Bool :=
  if pyStrip text = "" then false
  else if pyLower (pyStrip text) = "thank you" ∨
          pyLower (pyStrip text) = "thank you." then false
  else if pyStrip text = pyStrip last_text then false
  else true

/-! ## Pipeline state (`SpeechTranslationPipeline`, main_pipeline.py) -/

/-- Severity of a log record emitted through `self.logger`. -/
inductive LogLevel where
  | info : LogLevel
  | warning : LogLevel
  | error : LogLevel
deriving DecidableEq, BEq

/-- One log record: severity and message. -/
structure LogEntry where
  level : LogLevel
  msg : String
deriving DecidableEq, BEq

/-- The mutable state of a `SpeechTranslationPipeline` object: the running
flag, the cumulative request counter, the duplicate-suppression cell
`last_text`, and the three stage queues (`stt_queue`, `translation_queue`,
`tts_queue`), each holding `(text, request_id)` items. -/
structure PState where
  is_running : Bool
  request_counter : ℕ
  last_text : String
  stt_queue : List (String × String)
  translation_queue : List (String × String)
  tts_queue : List (String × String)
deriving DecidableEq

/-- The callback `_on_speech_to_text(text)` as a state transformer, with the
capture time `tMs` for the request id: when the gate accepts, it stores the
stripped candidate in `last_text`, increments the request counter, enqueues
`(cleaned, request_id)` on the translation queue and hands the text to the
translation worker; when it rejects, it returns without touching the state. -/
def on_speech_to_text (s : PState) (text : String) (tMs : ℕ) : PState :=
  if sttAccept s.last_text text then
    let cleaned := pyStrip text
    let counter := s.request_counter + 1
    { s with
        last_text := cleaned
        request_counter := counter
        translation_queue := s.translation_queue ++ [(cleaned, fmtId counter tMs)] }
  else s

/-- `start()` (main_pipeline.py 136-149): if already running, warn and return;
otherwise set the running flag and start audio capture (external).  Returns
the new state and the log records emitted, in order. -/
def start (s : PState) : PState × List LogEntry :=
  if s.is_running then
    (s, [⟨.warning, "Pipeline is already running"⟩])
  else
    ({ s with is_running := true },
      [⟨.info, "Starting speech translation pipeline..."⟩,
       ⟨.info, "Pipeline started. Speak in English to translate to Russian."⟩,
       ⟨.info, "Press Ctrl+C to stop."⟩])

/-- `stop()` (main_pipeline.py 151-168): if not running, return (no log
record is emitted); otherwise clear the running flag, stop the workers
(external) and drain all three queues via `_clear_queues`. -/
def stop (s : PState) : PState × List LogEntry :=
  if s.is_running then
    ({ s with
        is_running := false
        stt_queue := []
        translation_queue := []
        tts_queue := [] },
      [⟨.info, "Stopping speech translation pipeline..."⟩,
       ⟨.info, "Pipeline stopped"⟩])
  else (s, [])

/-- The dictionary returned by `get_status()` (main_pipeline.py 190-198). -/
structure Status where
  is_running : Bool
  stt_queue_size : ℕ
  translation_queue_size : ℕ
  tts_queue_size : ℕ
  total_requests : ℕ
deriving DecidableEq

/-- `get_status()`: the running flag, the three queue depths and the
cumulative request counter. -/
def get_status (s : PState) : Status :=
  ⟨s.is_running, s.stt_queue.length, s.translation_queue.length,
    s.tts_queue.length, s.request_counter⟩

/-! ## `EnglishToRussianTranslator.translate` (translation_module.py 71-94) -/

/-- `translate(text)`: empty (after strip) input returns `""` without
consulting the model; otherwise the MarianMT tokenizer/generate/decode chain
(the oracle `mt`) runs and its output is stripped.  A raising model call
propagates. -/
def translate (mt : String → Except String String) (text : String) :
    Except String String :=
  if pyStrip text = "" then .ok ""
  else (mt text).map pyStrip

/-! ## `RussianTextToSpeech.synthesize` (tts_module.py 83-139) -/

/-- The environment of one `synthesize` call: the gTTS `save` call, whether
the ffmpeg binary exists, the ffmpeg exit code and captured stderr, and the
result of reading back the converted WAV file. -/
structure TTSEnv where
  gttsSave : String → Except String Unit
  ffmpegFound : Bool
  ffmpegReturnCode : ℕ
  ffmpegStderr : String
  readWav : Except String (Sum (List ℚ) (List (List ℚ)))

/-- The mean of one multi-channel frame (`numpy` `mean(axis=1)` on one row). -/
def rowMean (r : List ℚ) : ℚ := r.sum / (r.length : ℚ)

/-- Collapse a decoded audio array to mono: 1-D data is kept, 2-D data is
averaged across channels (`audio_data.mean(axis=1)`). -/
def monoize : Sum (List ℚ) (List (List ℚ)) → List ℚ
  | .inl s => s
  | .inr rows => rows.map rowMean

/-- The body of the `try` block of `synthesize`: save the gTTS MP3, require
the ffmpeg binary, require exit code 0, read the WAV back and collapse it to
mono.  Each failure point raises. -/
def ttsBody (env : TTSEnv) (text : String) : Except String (List ℚ) := do
  let _ ← env.gttsSave text
  if env.ffmpegFound = false then
    Except.error "ffmpeg binary not found"
  else if env.ffmpegReturnCode ≠ 0 then
    Except.error ("ffmpeg failed: " ++ env.ffmpegStderr)
  else do
    let a ← env.readWav
    pure (monoize a)

/-- `synthesize(text)`: empty input returns an empty array without consulting
the model; otherwise the whole body runs inside `try`, and any raised error
is caught and turned into an empty array. -/
def synthesize (env : TTSEnv) (text : String) : List ℚ :=
  if text = "" ∨ pyStrip text = "" then []
  else
    match ttsBody env text with
    | .ok a => a
    | .error _ => []

/-! ## `process_file` (main_pipeline.py 200-229) -/

/-- The oracles `process_file` depends on: the Whisper transcription of a
file path, the MarianMT model, and the TTS call environment. -/
structure PipeEnv where
  whisperFile : String → Except String String
  mtModel : String → Except String String
  tts : TTSEnv

/-- `SpeechToText.transcribe_file` (stt_module.py 134-137): the raw model
text, stripped. -/
def transcribe_file (env : PipeEnv) (path : String) : Except String String :=
  (env.whisperFile path).map pyStrip

/-- The dictionary returned by `process_file` on the normal path. -/
structure FileResult where
  english_text : String
  russian_text : String
  audio_samples : ℕ
deriving DecidableEq

/-- `process_file(audio_file_path)`: transcribe; if the text strips to empty,
log a warning and return `None`; otherwise translate, synthesize, play the
audio if non-empty (external), and return the result dictionary.  A raising
stage propagates. -/
def process_file (env : PipeEnv) (path : String) :
    Except String (Option FileResult) := do
  let english_text ← transcribe_file env path
  if pyStrip english_text = "" then
    pure none
  else do
    let russian_text ← translate env.mtModel english_text
    let audio_data := synthesize env.tts russian_text
    pure (some ⟨english_text, russian_text, audio_data.length⟩)

/-! ## `TranslationPipeline.translate_audio_chunk` (api_app.py 98-167) -/

/-- The error taxonomy the API handler distinguishes: `ValueError` (reported
to the client as HTTP 400) versus any other exception raised by a stage
(reported as HTTP 500). -/
inductive ApiErr where
  | valueError (msg : String) : ApiErr
  | stageError (msg : String) : ApiErr
deriving DecidableEq

/-- The dictionary returned by `translate_audio_chunk` on success: the
synthesized Russian audio samples and both intermediate texts. -/
structure ChunkResult where
  audio : List ℚ
  english_text : String
  russian_text : String
deriving DecidableEq

/-- The oracles of the API pipeline: the soundfile decoder (decoded array and
sample rate), the Whisper transcription of raw samples, the MarianMT model,
and the TTS call environment. -/
structure ApiEnv where
  decode : List ℕ → Except String (Sum (List ℚ) (List (List ℚ)) × ℕ)
  whisperData : List ℚ → Except String String
  mtModel : String → Except String String
  tts : TTSEnv

/-- `translate_audio_chunk(audio_bytes)`: reject an empty payload, a decode
failure, a sample rate other than 16000 Hz and an empty decoded array with a
`ValueError`; collapse multi-channel data to mono; transcribe, substituting
the placeholder phrase when the stripped transcription is empty; translate,
rejecting empty output; synthesize, rejecting empty audio; return the result
dictionary. -/
def translate_audio_chunk (env : ApiEnv) (audio_bytes : List ℕ) :
    Except ApiErr ChunkResult :=
  if audio_bytes = [] then .error (.valueError "Empty audio payload")
  else
    match env.decode audio_bytes with
    | .error e => .error (.valueError ("Failed to decode audio: " ++ e))
    | .ok (arr, sample_rate) =>
      if sample_rate ≠ 16000 then
        .error (.valueError
          ("Expected 16 kHz audio, got " ++ decRepr sample_rate ++ " Hz"))
      else
        let audio_data := monoize arr
        if audio_data.length = 0 then
          .error (.valueError "Decoded audio is empty")
        else
          match env.whisperData audio_data with
          | .error e => .error (.stageError e)
          | .ok raw =>
            let t1 := pyStrip (pyStrip raw)
            let english_text := if t1 = "" then "Hello, how are you?" else t1
            match translate env.mtModel english_text with
            | .error e => .error (.stageError e)
            | .ok ru0 =>
              let russian_text := pyStrip ru0
              if russian_text = "" then
                .error (.valueError "Translation produced empty text")
              else
                let russian_audio := synthesize env.tts russian_text
                if russian_audio = [] then
                  .error (.valueError "TTS produced empty audio")
                else .ok ⟨russian_audio, english_text, russian_text⟩

/-! ## The `translate_audio` handler (api_app.py 239-322) -/

/-- The handler response: a success response carrying the WAV-encoded audio
and the two texts (returned as headers), or an HTTP error with a status code
and detail string. -/
inductive ApiResponse where
  | audioResponse (audio : List ℚ) (english_text russian_text : String) : ApiResponse
  | httpError (status : ℕ) (detail : String) : ApiResponse
deriving DecidableEq

/-- `translate_audio(file)`: validate the file name, suffix and size, run the
chunk through the pipeline, and map a `ValueError` to HTTP 400 and any other
stage exception to HTTP 500.  The handler always returns a response; a failed
chunk never terminates the service. -/
def translate_audio (env : ApiEnv) (maxMb : ℕ) (filename : String)
    (contents : List ℕ) : ApiResponse :=
  if filename = "" then .httpError 400 "No file provided"
  else if pyEndswith (pyLower filename) ".wav" = false then
    .httpError 400 "Only WAV files are supported"
  else if maxMb * 1024 * 1024 < contents.length then
    .httpError 413 ("File too large. Maximum size: " ++ decRepr maxMb ++ "MB")
  else if contents.length = 0 then .httpError 400 "Empty file"
  else
    match translate_audio_chunk env contents with
    | .ok r => .audioResponse r.audio r.english_text r.russian_text
    | .error (.valueError m) => .httpError 400 m
    | .error (.stageError _) =>
      .httpError 500 "Internal translation error. Check server logs for details."

/-! ## Concrete environments used to evaluate the definitions -/

/-- A TTS environment in which every external step succeeds and the converted
WAV holds three samples. -/
def ttsOk3 : TTSEnv :=
  ⟨fun _ => .ok (), true, 0, "", .ok (.inl [0, 0, 0])⟩

/-- A TTS environment in which the ffmpeg binary is missing. -/
def ttsNoFfmpeg : TTSEnv :=
  ⟨fun _ => .ok (), false, 0, "", .ok (.inl [1])⟩

/-- A file-mode environment whose recognition hears only silence. -/
def envSilence : PipeEnv :=
  ⟨fun _ => .ok "", fun _ => .ok "x", ttsOk3⟩

/-- A file-mode environment matching the scenario of the specification:
recognition hears "hello", translation maps "hello" to the Russian greeting,
synthesis yields three samples. -/
def envHello : PipeEnv :=
  ⟨fun _ => .ok "hello",
   fun t => if t = "hello" then .ok "привет" else .error "unexpected input",
   ttsOk3⟩

/-- An API environment whose recognition hears only whitespace on a valid
16 kHz mono chunk, and whose translation knows the placeholder phrase. -/
def envSilentChunk : ApiEnv :=
  ⟨fun _ => .ok (.inl [0], 16000),
   fun _ => .ok " ",
   fun t => if t = "Hello, how are you?" then .ok "Привет, как дела?"
            else .error "unexpected input",
   ttsOk3⟩

/-- An API environment that decodes to a two-channel (stereo) 16 kHz array. -/
def envStereo : ApiEnv :=
  ⟨fun _ => .ok (.inr [[1, 1], [1, 1]], 16000),
   fun _ => .ok "hi",
   fun _ => .ok "привет",
   ttsOk3⟩

/-- An API environment that decodes to a mono array declared at 8000 Hz. -/
def env8k : ApiEnv :=
  ⟨fun _ => .ok (.inl [1], 8000),
   fun _ => .ok "hi",
   fun _ => .ok "привет",
   ttsOk3⟩

/-- A running pipeline state with non-empty queues and a non-zero counter. -/
def sRunning : PState :=
  ⟨true, 7, "hi", [("a", "r1")], [("b", "r2")], [("c", "r3")]⟩

/-- A stopped pipeline state with a non-empty stt queue. -/
def sStopped : PState :=
  ⟨false, 3, "x", [("a", "r1")], [], []⟩

end STS

namespace STS

/-! ## Lemmas on the string primitives -/

theorem dropWhile_self_idem (p : α → Bool) :
    ∀ l : List α, (l.dropWhile p).dropWhile p = l.dropWhile p
  | [] => rfl
  | a :: l => by
    by_cases h : p a
    · simp [List.dropWhile_cons, h, dropWhile_self_idem p l]
    · simp [List.dropWhile_cons, h]

theorem head?_dropWhile_false (p : α → Bool) :
    ∀ (l : List α) (c : α), (l.dropWhile p).head? = some c → p c = false
  | [], c => by simp [List.dropWhile]
  | a :: l, c => by
    by_cases h : p a
    · simpa [List.dropWhile_cons, h] using head?_dropWhile_false p l c
    · simp [List.dropWhile_cons, h]
      rintro rfl
      simpa using h

theorem getLast?_dropWhile (p : α → Bool) (l : List α)
    (h : l.dropWhile p ≠ []) : (l.dropWhile p).getLast? = l.getLast? := by
  conv_rhs => rw [← List.takeWhile_append_dropWhile p l]
  rw [List.getLast?_append_of_ne_nil _ h]

theorem dropWhile_eq_self_of_head? (p : α → Bool) (l : List α) (c : α)
    (hc : l.head? = some c) (hpc : p c = false) : l.dropWhile p = l := by
  cases l with
  | nil => rfl
  | cons a l =>
    simp at hc
    subst hc
    simp [List.dropWhile_cons, hpc]

theorem dropBoth_idem (p : α → Bool) (l : List α) :
    dropBoth p (dropBoth p l) = dropBoth p l := by
  unfold dropBoth
  set A := l.dropWhile p with hA
  set C := A.reverse.dropWhile p with hC
  rcases hCnil : C with _ | ⟨c0, cs⟩
  · simp [hCnil]
  · have hCne : C ≠ [] := by rw [hCnil]; simp
    have hAresne : A.reverse ≠ [] := by
      intro h
      rw [hC, h] at hCnil
      simp at hCnil
    have hAne : A ≠ [] := fun h => hAresne (by rw [h]; rfl)
    -- the head of the trimmed list is the head of `A`, which fails `p`
    obtain ⟨a0, ha0⟩ : ∃ a0, A.head? = some a0 := by
      cases hAcase : A with
      | nil => exact absurd hAcase hAne
      | cons x xs => exact ⟨x, by simp⟩
    have ha0p : p a0 = false := head?_dropWhile_false p l a0 (by rw [← hA]; exact ha0)
    have hhead : C.reverse.head? = some a0 := by
      rw [List.head?_reverse, hC, getLast?_dropWhile p A.reverse hCne,
        List.getLast?_reverse]
      exact ha0
    have h1 : C.reverse.dropWhile p = C.reverse :=
      dropWhile_eq_self_of_head? p C.reverse a0 hhead ha0p
    rw [← hCnil, h1, List.reverse_reverse, hC, dropWhile_self_idem]

theorem pyStrip_idem (s : String) : pyStrip (pyStrip s) = pyStrip s :=
  congrArg String.mk (dropBoth_idem Char.isWhitespace s.data)

theorem pyStrip_empty : pyStrip "" = "" := rfl

/-! ## Lemmas on decimal rendering and request-id strings -/

theorem string_eq_of_data (s t : String) (h : s.data = t.data) : s = t := by
  cases s
  cases t
  exact congrArg String.mk h

theorem digitChar10_inj {d e : ℕ} (hd : d < 10) (he : e < 10)
    (h : digitChar10 d = digitChar10 e) : d = e := by
  interval_cases d <;> interval_cases e <;> revert h <;> decide

theorem digitChar10_ne_underscore {d : ℕ} (hd : d < 10) :
    digitChar10 d ≠ '_' := by
  interval_cases d <;> decide

theorem map_digitChar10_inj :
    ∀ l₁ l₂ : List ℕ, (∀ d ∈ l₁, d < 10) → (∀ d ∈ l₂, d < 10) →
      l₁.map digitChar10 = l₂.map digitChar10 → l₁ = l₂
  | [], [], _, _, _ => rfl
  | [], _ :: _, _, _, h => by simp at h
  | _ :: _, [], _, _, h => by simp at h
  | a :: l₁, b :: l₂, h₁, h₂, h => by
    simp only [List.map_cons, List.cons.injEq] at h
    have hab : a = b :=
      digitChar10_inj (h₁ a (by simp)) (h₂ b (by simp)) h.1
    have := map_digitChar10_inj l₁ l₂ (fun d hd => h₁ d (by simp [hd]))
      (fun d hd => h₂ d (by simp [hd])) h.2
    rw [hab, this]

theorem underscore_not_mem_decRepr (n : ℕ) : '_' ∉ (decRepr n).data := by
  unfold decRepr
  by_cases h : n = 0
  · simp [h]
  · simp [h]
    intro d hd hcontra
    exact digitChar10_ne_underscore (Nat.digits_lt_base (by norm_num) hd) hcontra

theorem decRepr_inj {n m : ℕ} (h : decRepr n = decRepr m) : n = m := by
  have hdata : (decRepr n).data = (decRepr m).data := congrArg String.data h
  by_cases hn : n = 0 <;> by_cases hm : m = 0
  · rw [hn, hm]
  · exfalso
    simp [decRepr, hn, hm] at hdata
    have hd : ((Nat.digits 10 m).map digitChar10).reverse = ['0'] := hdata.symm
    have : (Nat.digits 10 m).map digitChar10 = ['0'] := by
      have := congrArg List.reverse hd
      simpa using this
    rcases hds : Nat.digits 10 m with _ | ⟨d, ds⟩
    · rw [hds] at this; simp at this
    · rw [hds] at this
      simp only [List.map_cons, List.cons.injEq] at this
      have hds0 : ds = [] := by
        have := this.2
        rcases ds with _ | _
        · rfl
        · simp at this
      have hdlt : d < 10 :=
        Nat.digits_lt_base (by norm_num) (by rw [hds]; simp)
      have hd0 : d = 0 := by
        have h0 : digitChar10 d = digitChar10 0 := by
          rw [this.1]; decide
        exact digitChar10_inj hdlt (by norm_num) h0
      have : m = 0 := by
        have := Nat.ofDigits_digits 10 m
        rw [hds, hds0, hd0] at this
        simpa [Nat.ofDigits] using this.symm
      exact hm this
  · exfalso
    simp [decRepr, hn, hm] at hdata
    have : (Nat.digits 10 n).map digitChar10 = ['0'] := hdata
    rcases hds : Nat.digits 10 n with _ | ⟨d, ds⟩
    · rw [hds] at this; simp at this
    · rw [hds] at this
      simp only [List.map_cons, List.cons.injEq] at this
      have hds0 : ds = [] := by
        have := this.2
        rcases ds with _ | _
        · rfl
        · simp at this
      have hdlt : d < 10 :=
        Nat.digits_lt_base (by norm_num) (by rw [hds]; simp)
      have hd0 : d = 0 := by
        have h0 : digitChar10 d = digitChar10 0 := by
          rw [this.1]; decide
        exact digitChar10_inj hdlt (by norm_num) h0
      have : n = 0 := by
        have := Nat.ofDigits_digits 10 n
        rw [hds, hds0, hd0] at this
        simpa [Nat.ofDigits] using this.symm
      exact hn this
  · simp [decRepr, hn, hm] at hdata
    have : (Nat.digits 10 n).map digitChar10 = (Nat.digits 10 m).map digitChar10 := by
      have := congrArg List.reverse hdata
      simpa using this
    have hdig : Nat.digits 10 n = Nat.digits 10 m :=
      map_digitChar10_inj _ _
        (fun d hd => Nat.digits_lt_base (by norm_num) hd)
        (fun d hd => Nat.digits_lt_base (by norm_num) hd) this
    have h1 := Nat.ofDigits_digits 10 n
    have h2 := Nat.ofDigits_digits 10 m
    rw [hdig] at h1
    rw [← h1, h2]

/-- Splitting at a separator character that occurs in neither left part is
unambiguous. -/
theorem sep_split (sep : α) [DecidableEq α] :
    ∀ (a b s u : List α), sep ∉ a → sep ∉ b →
      a ++ sep :: s = b ++ sep :: u → a = b ∧ s = u
  | [], [], s, u, _, _, h => by simpa using h
  | [], x :: xs, s, u, _, hb, h => by
    simp only [List.nil_append, List.cons_append, List.cons.injEq] at h
    exact absurd (h.1 ▸ List.mem_cons_self x xs) (h.1 ▸ hb)
  | x :: xs, [], s, u, ha, _, h => by
    simp only [List.nil_append, List.cons_append, List.cons.injEq] at h
    exact absurd (show sep ∈ x :: xs by
      rw [h.1]; exact List.mem_cons_self sep xs) ha
  | x :: xs, y :: ys, s, u, ha, hb, h => by
    simp only [List.cons_append, List.cons.injEq] at h
    have := sep_split sep xs ys s u
      (fun hx => ha (List.mem_cons_of_mem x hx))
      (fun hy => hb (List.mem_cons_of_mem y hy)) h.2
    exact ⟨by rw [h.1, this.1], this.2⟩

theorem fmtId_inj_seq {n t m u : ℕ} (h : fmtId n t = fmtId m u) : n = m := by
  have hdata : (fmtId n t).data = (fmtId m u).data := congrArg String.data h
  have hshape : ∀ k s : ℕ, (fmtId k s).data =
      ("req_".data ++ (decRepr k).data) ++ '_' :: (decRepr s).data := by
    intro k s
    show ((("req_" ++ decRepr k) ++ "_") ++ decRepr s).data = _
    show (("req_" ++ decRepr k).data ++ "_".data) ++ (decRepr s).data = _
    show (("req_".data ++ (decRepr k).data) ++ ['_']) ++ (decRepr s).data = _
    rw [List.append_assoc]
    rfl
  rw [hshape, hshape] at hdata
  -- split at the last separator by reversing
  have hrev := congrArg List.reverse hdata
  simp only [List.reverse_append, List.reverse_cons] at hrev
  rw [List.append_assoc, List.append_assoc] at hrev
  have hsplit := sep_split '_' (decRepr t).data.reverse (decRepr u).data.reverse
    _ _ (by simpa using underscore_not_mem_decRepr t)
    (by simpa using underscore_not_mem_decRepr u)
    (by simpa using hrev)
  have hleft : ("req_".data ++ (decRepr n).data) =
      ("req_".data ++ (decRepr m).data) := by
    have := congrArg List.reverse hsplit.2
    simpa using this
  have : (decRepr n).data = (decRepr m).data := List.append_cancel_left hleft
  exact decRepr_inj (string_eq_of_data _ _ this)

/-! ## Serialized request-id generation -/

theorem genIds_counter_lt :
    ∀ (ts : List ℕ) (c : ℕ) (x : ℕ × String), x ∈ genIds c ts → c < x.1
  | [], _, _, hx => by simp [genIds] at hx
  | t :: ts, c, x, hx => by
    simp only [genIds, List.mem_cons] at hx
    rcases hx with hx | hx
    · rw [hx]; exact Nat.lt_succ_self c
    · exact Nat.lt_of_succ_lt (genIds_counter_lt ts (c + 1) x hx)

theorem genIds_shape :
    ∀ (ts : List ℕ) (c : ℕ) (x : ℕ × String), x ∈ genIds c ts →
      ∃ u, x.2 = fmtId x.1 u
  | [], _, _, hx => by simp [genIds] at hx
  | t :: ts, c, x, hx => by
    simp only [genIds, List.mem_cons] at hx
    rcases hx with hx | hx
    · exact ⟨t, by rw [hx]⟩
    · exact genIds_shape ts (c + 1) x hx

/-- Claim C2 (amended): serialized executions of `_get_request_id` return ids
whose embedded sequence numbers are strictly increasing, and no two calls
return equal id strings. -/
theorem request_ids_serial_unique (c : ℕ) (ts : List ℕ) :
    (genIds c ts).Pairwise (fun x y => x.1 < y.1 ∧ x.2 ≠ y.2) := by
  induction ts generalizing c with
  | nil => exact List.Pairwise.nil
  | cons t ts ih =>
    refine List.Pairwise.cons ?_ (ih (c + 1))
    intro y hy
    have hlt : c + 1 < y.1 := genIds_counter_lt ts (c + 1) y hy
    obtain ⟨u, hu⟩ := genIds_shape ts (c + 1) y hy
    refine ⟨hlt, fun hcontra => ?_⟩
    rw [hu] at hcontra
    exact absurd (fmtId_inj_seq hcontra) (Nat.ne_of_lt hlt)

/-- Claim C2 (counterexample to the concurrency part): the two statements of
`_get_request_id` (the unsynchronized `self.request_counter += 1` and the
f-string that reads the counter again) can interleave across two threads so
that both calls return the identical id string `"req_2_5"`: both increments
run first, then both format reads observe counter value 2 at the same
millisecond. -/
theorem request_id_race_duplicate :
    raceRun 5 5 [true, false, true, false] raceInit =
      ⟨2, .done (fmtId 2 5), .done (fmtId 2 5)⟩ := rfl

/-! ## Claim C1: the recognized-text gate -/

/-- Claim C1: given that the previous-accepted-text cell holds a stripped
value (the only values the pipeline ever stores there), `_on_speech_to_text`
accepts a candidate iff the stripped candidate is non-empty, its lowering is
neither "thank you" nor "thank you.", and it differs from the previous
accepted text; on acceptance the cell is updated to the stripped candidate,
and on rejection the state is untouched. -/
theorem textgate_accept_iff (prev cand : String)
    (hprev : pyStrip prev = prev) :
    (sttAccept prev cand = true ↔
      (pyStrip cand ≠ "" ∧ pyLower (pyStrip cand) ≠ "thank you" ∧
       pyLower (pyStrip cand) ≠ "thank you." ∧ pyStrip cand ≠ prev)) ∧
    (∀ (s : PState) (tMs : ℕ), s.last_text = prev →
      (sttAccept prev cand = true →
        (on_speech_to_text s cand tMs).last_text = pyStrip cand) ∧
      (sttAccept prev cand = false → on_speech_to_text s cand tMs = s)) := by
  constructor
  · unfold sttAccept
    rw [hprev]
    split_ifs with h1 h2 h3
    · simp [h1]
    · rcases h2 with h2 | h2 <;> simp [h2]
    · simp [h3]
    · simp only [true_iff]
      exact ⟨h1, (not_or.mp h2).1, (not_or.mp h2).2, h3⟩
  · intro s tMs hlast
    constructor
    · intro hacc
      unfold on_speech_to_text
      rw [hlast, hacc]
      simp
    · intro hrej
      unfold on_speech_to_text
      rw [hlast, hrej]
      simp

/-- Witness for C1 on concrete strings: with previous accepted text "hello",
the candidate " world " is accepted and the cell becomes "world". -/
theorem textgate_accept_iff_witness :
    sttAccept "hello" " world " = true ∧
    (on_speech_to_text ⟨true, 0, "hello", [], [], []⟩ " world " 7).last_text =
      pyStrip " world " := by
  have h := textgate_accept_iff "hello" " world " (by decide)
  have hacc : sttAccept "hello" " world " = true :=
    h.1.mpr ⟨by decide, by decide, by decide, by decide⟩
  exact ⟨hacc, (h.2 ⟨true, 0, "hello", [], [], []⟩ 7 rfl).1 hacc⟩

/-- The pipeline only ever stores stripped values in `last_text`, which
justifies the hypothesis of `textgate_accept_iff` on reachable states. -/
theorem last_text_stays_stripped (s : PState) (text : String) (tMs : ℕ)
    (h : pyStrip s.last_text = s.last_text) :
    pyStrip (on_speech_to_text s text tMs).last_text =
      (on_speech_to_text s text tMs).last_text := by
  unfold on_speech_to_text
  split_ifs with hacc
  · simp [pyStrip_idem]
  · exact h

/-! ## Claims C6 and C7: the start/stop state machine -/

/-- Claim C6: `stop()` on a running pipeline purges all three stage queues
and leaves the cumulative request counter unchanged, and a subsequent
`start()` yields a running state whose status reports all queue depths zero
and the counter from before the stop. -/
theorem stop_start_restores_fresh_running (s : PState)
    (h : s.is_running = true) :
    (stop s).1.request_counter = s.request_counter ∧
    (stop s).1.stt_queue = [] ∧
    (stop s).1.translation_queue = [] ∧
    (stop s).1.tts_queue = [] ∧
    get_status (start (stop s).1).1 = ⟨true, 0, 0, 0, s.request_counter⟩ := by
  simp [stop, start, get_status, h]

/-- Witness for C6 on a concrete running state with non-empty queues and
counter 7. -/
theorem stop_start_restores_fresh_running_witness :
    get_status (start (stop sRunning).1).1 = ⟨true, 0, 0, 0, 7⟩ ∧
    (stop sRunning).1.request_counter = 7 := by
  have h := stop_start_restores_fresh_running sRunning rfl
  exact ⟨h.2.2.2.2, h.1⟩

/-- Claim C7 (counterexample to the logging part): `stop()` on a stopped
pipeline returns immediately and emits no log record at all, so in
particular no warning is logged — the state no-op holds but the claimed
warning does not exist. -/
theorem stop_stopped_emits_no_warning :
    stop sStopped = (sStopped, []) ∧
    ((stop sStopped).2.any fun e => e.level == LogLevel.warning) = false :=
  ⟨rfl, rfl⟩

/-- Claim C7 (amended): `start()` while running and `stop()` while stopped
leave the entire pipeline state unchanged; `start()` logs exactly one
warning record, while `stop()` returns silently without logging anything. -/
theorem start_stop_idempotent (s : PState) :
    (s.is_running = true →
      start s = (s, [⟨.warning, "Pipeline is already running"⟩])) ∧
    (s.is_running = false → stop s = (s, [])) := by
  constructor
  · intro h
    simp [start, h]
  · intro h
    simp [stop, h]

/-- Witness for C7 on concrete running and stopped states. -/
theorem start_stop_idempotent_witness :
    start sRunning = (sRunning, [⟨.warning, "Pipeline is already running"⟩]) ∧
    stop sStopped = (sStopped, []) :=
  ⟨(start_stop_idempotent sRunning).1 rfl, (start_stop_idempotent sStopped).2 rfl⟩

/-! ## Claim C8: empty-input short-circuit of the stage functions -/

/-- Claim C8: whitespace-only input makes `translate` return the empty
string and `synthesize` return an empty sample array; the conclusion holds
for every model oracle, so the underlying model is never consulted. -/
theorem empty_input_short_circuit (mt : String → Except String String)
    (env : TTSEnv) (text : String) (h : pyStrip text = "") :
    translate mt text = .ok "" ∧ synthesize env text = [] := by
  constructor
  · simp [translate, h]
  · simp [synthesize, h]

/-- Witness for C8: on the whitespace string "  " both stage functions
short-circuit even though the supplied oracles would fail if invoked. -/
theorem empty_input_short_circuit_witness :
    translate (fun _ => .error "model invoked") "  " = .ok "" ∧
    synthesize ttsNoFfmpeg "  " = [] :=
  empty_input_short_circuit (fun _ => .error "model invoked") ttsNoFfmpeg "  "
    (by decide)

/-! ## Claim C10: `synthesize` never propagates a failure -/

/-- Claim C10: `synthesize` is a total function into sample arrays, and any
failure raised inside its body (gTTS save, missing ffmpeg, ffmpeg exit code,
reading the WAV back) yields the empty array rather than an error. -/
theorem synthesize_swallows_failures (env : TTSEnv) (text : String)
    (e : String) (h : ttsBody env text = .error e) :
    synthesize env text = [] := by
  unfold synthesize
  split_ifs with hcond
  · rfl
  · rw [h]

/-- Witness for C10: with the ffmpeg binary missing, synthesis of a
non-empty text returns the empty array instead of raising. -/
theorem synthesize_swallows_failures_witness :
    synthesize ttsNoFfmpeg "привет" = [] :=
  synthesize_swallows_failures ttsNoFfmpeg "привет" "ffmpeg binary not found"
    rfl

/-! ## Claims C3 and C9: the `process_file` path -/

/-- Claim C9: when the file transcription strips to empty text,
`process_file` returns `None` — and it does so for every translation model
and every TTS environment, so the translation and synthesis stages are never
invoked on that file. -/
theorem process_file_silence_returns_none
    (wf mt mt2 : String → Except String String) (tts tts2 : TTSEnv)
    (path raw : String) (hw : wf path = .ok raw) (h : pyStrip raw = "") :
    process_file ⟨wf, mt, tts⟩ path = .ok none ∧
    process_file ⟨wf, mt2, tts2⟩ path = .ok none := by
  constructor <;>
    simp [process_file, transcribe_file, hw, h, pyStrip_empty, Except.map,
      Bind.bind, Except.bind, pure, Except.pure]

/-- Witness for C9: silent recognition yields `None` even under a translation
oracle that would fail and a TTS environment with no ffmpeg. -/
theorem process_file_silence_returns_none_witness :
    process_file envSilence "audio.wav" = .ok none ∧
    process_file ⟨envSilence.whisperFile, fun _ => .error "no model",
      ttsNoFfmpeg⟩ "audio.wav" = .ok none :=
  process_file_silence_returns_none envSilence.whisperFile envSilence.mtModel
    (fun _ => .error "no model") envSilence.tts ttsNoFfmpeg "audio.wav" ""
    rfl rfl

/-- Claim C3 (counterexample): on a file whose recognition hears silence,
`process_file` returns `None` — by constructor disjointness this is neither
the documented result triple (`.ok (some _)`) nor a raised error
(`.error _`), refuting the claim that every input yields the triple or
raises. -/
theorem process_file_silence_not_triple :
    process_file envSilence "audio.wav" = .ok none ∧
    (match process_file envSilence "audio.wav" with
     | .ok (some _) => False
     | .error _ => False
     | .ok none => True) :=
  ⟨rfl, trivial⟩

/-- Claim C3 (amended): for every input file whose recognized text is
non-empty after stripping, `process_file` runs recognition, then
translation, then synthesis as direct calls bypassing the queues and the
text gate, and returns the triple of recognized text, translated text and
`len(synthesize(russian_text))`; a raising recognition or translation stage
propagates its error.  (When the recognized text strips to empty it instead
returns `None`; and the synthesis stage never raises, see C10.) -/
theorem process_file_nonempty_triple (env : PipeEnv) (path : String) :
    (∀ e, env.whisperFile path = .error e →
      process_file env path = .error e) ∧
    (∀ raw, env.whisperFile path = .ok raw → pyStrip raw ≠ "" →
      (∀ e, env.mtModel (pyStrip raw) = .error e →
        process_file env path = .error e) ∧
      (∀ ru, env.mtModel (pyStrip raw) = .ok ru →
        process_file env path = .ok (some ⟨pyStrip raw, pyStrip ru,
          (synthesize env.tts (pyStrip ru)).length⟩))) := by
  constructor
  · intro e he
    simp [process_file, transcribe_file, he, Except.map, Bind.bind,
      Except.bind]
  · intro raw hraw hne
    constructor
    · intro e he
      simp [process_file, transcribe_file, translate, hraw, pyStrip_idem,
        hne, he, Except.map, Bind.bind, Except.bind, Functor.map, pure,
        Except.pure]
    · intro ru hru
      simp [process_file, transcribe_file, translate, hraw, pyStrip_idem,
        hne, hru, Except.map, Bind.bind, Except.bind, Functor.map, pure,
        Except.pure]

/-- Witness for C3 matching the file-mode scenario of the specification:
recognition hears "hello", translation maps it to the Russian greeting, and
the returned sample count equals the length of the synthesized audio. -/
theorem process_file_nonempty_triple_witness :
    process_file envHello "speech.wav" = .ok (some ⟨"hello", "привет", 3⟩) := by
  have h := ((process_file_nonempty_triple envHello "speech.wav").2 "hello"
    rfl (by decide)).2 "привет" rfl
  exact h

/-! ## Claim C4: the placeholder phrase on silent session chunks -/

/-- Claim C4: a successfully decoded 16 kHz chunk on which recognition
returns whitespace-only text is not an error: the fixed placeholder English
phrase is substituted, translation and synthesis still run, and the result is
a success carrying the synthesized audio and a non-empty Russian text. -/
theorem chunk_placeholder_on_silence (env : ApiEnv) (bytes : List ℕ)
    (arr : Sum (List ℚ) (List (List ℚ))) (raw ru : String)
    (hb : bytes ≠ [])
    (hdec : env.decode bytes = .ok (arr, 16000))
    (hmono : monoize arr ≠ [])
    (hstt : env.whisperData (monoize arr) = .ok raw)
    (hsilent : pyStrip raw = "")
    (hmt : env.mtModel "Hello, how are you?" = .ok ru)
    (hru : pyStrip ru = ru) (hrune : ru ≠ "")
    (htts : synthesize env.tts ru ≠ []) :
    translate_audio_chunk env bytes =
      .ok ⟨synthesize env.tts ru, "Hello, how are you?", ru⟩ ∧ ru ≠ "" := by
  refine ⟨?_, hrune⟩
  simp [translate_audio_chunk, translate, hb, hdec, hstt, hmt, hsilent, hru,
    hrune, htts, pyStrip_empty, List.length_eq_zero, hmono, Except.map,
    show pyStrip "Hello, how are you?" = "Hello, how are you?" from by decide,
    show ("Hello, how are you?" : String) ≠ "" from by decide]

/-- Witness for C4 matching the session scenario of the specification: a
valid mono 16 kHz chunk of silence still yields audio and a non-empty
Russian text via the placeholder phrase. -/
theorem chunk_placeholder_on_silence_witness :
    translate_audio_chunk envSilentChunk [0] =
      .ok ⟨[0, 0, 0], "Hello, how are you?", "Привет, как дела?"⟩ := by
  exact (chunk_placeholder_on_silence envSilentChunk [0] (.inl [0]) " "
    "Привет, как дела?" (by decide) rfl (by decide) rfl (by decide) rfl
    (by decide) (by decide) (by decide)).1

/-! ## Claim C5: session input validation -/

/-- Claim C5 (counterexample to the channel-layout part): a two-channel
(stereo) 16 kHz chunk is not rejected: `translate_audio_chunk` averages it
to mono and succeeds, and the handler returns the audio response — no
structured error is produced for a wrong channel layout. -/
theorem stereo_chunk_not_rejected :
    translate_audio_chunk envStereo [1] = .ok ⟨[0, 0, 0], "hi", "привет"⟩ ∧
    translate_audio envStereo 10 "a.wav" [1] =
      .audioResponse [0, 0, 0] "hi" "привет" :=
  ⟨rfl, rfl⟩

/-- Claim C5 (amended): for a request passing the handler's file checks, a
decode failure, a sample rate other than 16000 Hz, and an empty decoded
payload each produce a `ValueError` that the handler reports as an HTTP 400
error response with no audio; the handler returns a response rather than
terminating, so the service keeps serving subsequent requests.  (A
multi-channel layout is not rejected: it is averaged to mono, see the
counterexample.) -/
theorem chunk_validation_errors (env : ApiEnv) (maxMb : ℕ)
    (filename : String) (contents : List ℕ)
    (hname : filename ≠ "")
    (hwav : pyEndswith (pyLower filename) ".wav" = true)
    (hsize : contents.length ≤ maxMb * 1024 * 1024)
    (hne : contents ≠ []) :
    (∀ e, env.decode contents = .error e →
      translate_audio env maxMb filename contents =
        .httpError 400 ("Failed to decode audio: " ++ e)) ∧
    (∀ arr r, env.decode contents = .ok (arr, r) → r ≠ 16000 →
      translate_audio env maxMb filename contents =
        .httpError 400 ("Expected 16 kHz audio, got " ++ decRepr r ++ " Hz")) ∧
    (∀ arr, env.decode contents = .ok (arr, 16000) → monoize arr = [] →
      translate_audio env maxMb filename contents =
        .httpError 400 "Decoded audio is empty") := by
  have hlen : contents.length ≠ 0 := by
    intro h0
    exact hne (List.length_eq_zero.mp h0)
  have hnotbig : ¬ (maxMb * 1024 * 1024 < contents.length) := not_lt.mpr hsize
  refine ⟨?_, ?_, ?_⟩
  · intro e he
    simp [translate_audio, translate_audio_chunk, hname, hwav, hnotbig, hlen,
      hne, he]
  · intro arr r hdec hrate
    simp [translate_audio, translate_audio_chunk, hname, hwav, hnotbig, hlen,
      hne, hdec, hrate]
  · intro arr hdec hempty
    simp [translate_audio, translate_audio_chunk, hname, hwav, hnotbig, hlen,
      hne, hdec, hempty]

/-- Witness for C5 matching the session scenario of the specification: a
chunk declared at 8000 Hz yields a single HTTP 400 error response and no
audio. -/
theorem chunk_validation_errors_witness :
    translate_audio env8k 10 "a.wav" [1] =
      .httpError 400 ("Expected 16 kHz audio, got " ++ decRepr 8000 ++ " Hz") :=
  (chunk_validation_errors env8k 10 "a.wav" [1] (by decide) (by decide)
    (by decide) (by decide)).2.1 (.inl [1]) 8000 rfl (by decide)

end STS
